import Mathlib

/-!
Shallow embedding of the adaptive playback session core of
`react-video-player` (src/src/hooks/useVideoPlayer.ts, src/src/lib/types.ts,
and the HLS helper module providing `buildQualityLevels`).

Modelling conventions:
* JavaScript numbers that can be `NaN`/`Infinity` (the sink's `duration`,
  seek targets) are modelled by `JSNum`; plain finite numbers by `ℚ`.
* Strings handled character-wise (URLs) are modelled as `List Char`.
* The WHATWG URL parser invoked by `new URL(url, "https://x")` is abstracted
  as a parameter `parseURL : List Char → Option (List Char)` returning the
  pathname on success and `none` when parsing throws.
* The session (the hook's refs plus its React state) is a `Session` record;
  each event handler of the hook becomes a function `Session → Session`
  (or `PlayerState → PlayerState` for plain sink events).
* Engine (HLS.js) instances are identified by a numeric id; `Session.hls`
  models `hlsRef.current`, `Session.pending` the retry timers created by
  `setTimeout` in the network-error branch, and `Session.loads` a log of
  `startLoad` calls performed by fired retry timers.
* A destroyed engine instance emits no further events (`destroy()`
  unsubscribes its listeners synchronously), so engine-event handlers act
  only when a current engine instance exists.
* `lastVolumeRef` (volume restore for `toggleMute`) is not modelled: no
  claim concerns it.
-/

namespace VideoPlayer

/-! ## JavaScript number model -/

/-- A JavaScript number: `NaN`, `±Infinity`, or a finite value. -/
inductive JSNum where
  | nan
  | posInf
  | negInf
  | num (q : ℚ)
deriving DecidableEq

/-- `Number.isFinite`. -/
def isFiniteNum : JSNum → Bool
  | .num _ => true
  | _ => false

/-- JavaScript truthiness of a number: `0` and `NaN` are falsy, everything
else (including `±Infinity`) is truthy. -/
def truthyNum : JSNum → Bool
  | .nan => false
  | .num q => q != 0
  | _ => true

/-- `Math.min` on two arguments: `NaN` absorbs, otherwise the order with
`-Infinity < finite < Infinity`. -/
def jsMin : JSNum → JSNum → JSNum
  | .nan, _ => .nan
  | _, .nan => .nan
  | .negInf, _ => .negInf
  | _, .negInf => .negInf
  | .posInf, b => b
  | a, .posInf => a
  | .num a, .num b => .num (min a b)

/-- `Math.max` on two arguments: `NaN` absorbs, otherwise the order with
`-Infinity < finite < Infinity`. -/
def jsMax : JSNum → JSNum → JSNum
  | .nan, _ => .nan
  | _, .nan => .nan
  | .posInf, _ => .posInf
  | _, .posInf => .posInf
  | .negInf, b => b
  | a, .negInf => a
  | .num a, .num b => .num (max a b)

/-- A JavaScript number is negative when it is `-Infinity` or a finite
value below zero (`NaN` and `Infinity` are not negative). -/
def isNegNum : JSNum → Bool
  | .negInf => true
  | .num q => q < 0
  | _ => false

/-! ## Character-list string helpers -/

/-- Lower-case every character (model of `String.prototype.toLowerCase` /
the `i` regex flag restricted to the ASCII patterns used here). -/
def lowerStr (s : List Char) : List Char := s.map Char.toLower

/-- `pat` occurs at the start of `s`. -/
def startsWithL : List Char → List Char → Bool
  | [], _ => true
  | _ :: _, [] => false
  | p :: ps, c :: cs => p == c && startsWithL ps cs

/-- `pat` occurs somewhere inside `s` (model of `String.prototype.includes`
and of a `regex.test` for a literal pattern). -/
def occursIn (pat : List Char) : List Char → Bool
  | [] => startsWithL pat []
  | c :: cs => startsWithL pat (c :: cs) || occursIn pat cs

/-- `pat` occurs at the end of `s` (model of `String.prototype.endsWith`). -/
def endsWithL (pat s : List Char) : Bool :=
  startsWithL pat.reverse s.reverse

/-! ## Source Resolver: `isHLSUrl` (src/src/lib/types.ts) -/

/-- The manifest file extension checked by `isHLSUrl`. -/
def hlsExt : List Char := ".m3u8".data

/-- The CDN adaptive-stream path segment tested by `/\/hls\//i`. -/
def hlsSeg : List Char := "/hls/".data

/-- The origin-server manifest pattern tested by `/\/stream\.m3u8/i`. -/
def streamPat : List Char := "/stream.m3u8".data

/-- `isHLSUrl(url)`: on a successful parse, the lower-cased pathname must
end in `.m3u8`, or the raw url must match `/\/hls\//i` or
`/\/stream\.m3u8/i`; when parsing throws, fall back to a case-insensitive
substring check for `.m3u8` on the whole url. -/
def isHLSUrl (parseURL : List Char → Option (List Char)) (url : List Char) : Bool :=
  match parseURL url with
  | some pathname =>
      endsWithL hlsExt (lowerStr pathname) ||
      occursIn hlsSeg (lowerStr url) ||
      occursIn streamPat (lowerStr url)
  | none => occursIn hlsExt (lowerStr url)

/-- Written from the spec's words (§4.1), for comparison with `isHLSUrl`:
a URL is a manifest when its parsed path ends in the manifest extension,
or it contains the CDN adaptive-stream segment, or it matches the
origin-server manifest pattern; on parse failure, a raw case-insensitive
substring check for the extension. -/
def SpecManifest (parseURL : List Char → Option (List Char)) (url : List Char) : Prop :=
  match parseURL url with
  | some pathname =>
      (∃ t, lowerStr pathname = t ++ hlsExt) ∨
      (∃ a b, lowerStr url = a ++ hlsSeg ++ b) ∨
      (∃ a b, lowerStr url = a ++ streamPat ++ b)
  | none => ∃ a b, lowerStr url = a ++ hlsExt ++ b

/-! ## Errors and quality levels (src/src/lib/types.ts, HLS helpers) -/

inductive VideoErrorCode where
  | MEDIA_ERR_ABORTED
  | MEDIA_ERR_NETWORK
  | MEDIA_ERR_DECODE
  | MEDIA_ERR_SRC_NOT_SUPPORTED
  | HLS_NETWORK_ERROR
  | HLS_FATAL_ERROR
  | UNKNOWN
deriving DecidableEq

structure VideoError where
  code : VideoErrorCode
  message : String
deriving DecidableEq

/-- The error set after retry exhaustion (network branch, else case). -/
def streamNetworkError : VideoError :=
  ⟨.HLS_NETWORK_ERROR, "Failed to load stream after multiple retries."⟩

/-- The error set on a fatal non-network non-media engine error. -/
def streamFatalError : VideoError :=
  ⟨.HLS_FATAL_ERROR, "An unrecoverable HLS error occurred."⟩

/-- A raw HLS.js level object (only the fields `buildQualityLevels` reads;
`Option` models fields that may be absent, handled by `?? 0`). -/
structure RawLevel where
  height : Option Nat
  width : Option Nat
  bitrate : Option Nat
deriving DecidableEq

structure HLSQualityLevel where
  id : Nat
  height : Nat
  width : Nat
  bitrate : Nat
  name : String
deriving DecidableEq

/-- `buildQualityLevels`: map each raw level, with its index, to the public
shape; the name is `"{height}p"` when height is truthy, else
`"Level {index+1}"`. -/
def buildQualityLevels (levels : List RawLevel) : List HLSQualityLevel :=
  levels.enum.map fun p =>
    { id := p.1
      height := p.2.height.getD 0
      width := p.2.width.getD 0
      bitrate := p.2.bitrate.getD 0
      name :=
        if p.2.height.getD 0 ≠ 0 then toString (p.2.height.getD 0) ++ "p"
        else "Level " ++ toString (p.1 + 1) }

/-! ## Player state (the hook's React state) -/

structure PlayerState where
  isPlaying : Bool
  currentTime : ℚ
  duration : ℚ
  volume : ℚ
  isMuted : Bool
  playbackRate : ℚ
  isFullscreen : Bool
  isPictureInPicture : Bool
  isBuffering : Bool
  bufferedRanges : List (ℚ × ℚ)
  error : Option VideoError
  isLive : Bool
  qualityLevels : List HLSQualityLevel
  currentQualityLevel : Int
deriving DecidableEq

/-- `DEFAULT_STATE`. -/
def DEFAULT_STATE : PlayerState :=
  { isPlaying := false
    currentTime := 0
    duration := 0
    volume := 1
    isMuted := false
    playbackRate := 1
    isFullscreen := false
    isPictureInPicture := false
    isBuffering := false
    bufferedRanges := []
    error := none
    isLive := false
    qualityLevels := []
    currentQualityLevel := -1 }

/-! ## Session (the hook's refs plus state) -/

/-- A scheduled retry timer: the engine instance it was issued for
(captured by the `setTimeout` closure) and its delay in milliseconds. -/
structure Retry where
  engine : Nat
  delay : Nat
deriving DecidableEq

structure Session where
  state : PlayerState
  /-- `networkRetriesRef.current`. -/
  networkRetries : Nat
  /-- `hlsRef.current`: identity of the current engine instance, if any. -/
  hls : Option Nat
  /-- Source of fresh engine-instance identities. -/
  nextEngine : Nat
  /-- Retry timers scheduled but not yet fired. -/
  pending : List Retry
  /-- Log of `startLoad` calls performed by fired retry timers. -/
  loads : List Nat
deriving DecidableEq

/-- The hook's initial state: `DEFAULT_STATE` with the `muted` option
applied (`isMuted := muted`, `volume := muted ? 0 : 1`). -/
def initialSession (muted : Bool) : Session :=
  { state := { DEFAULT_STATE with
                 isMuted := muted
                 volume := if muted then 0 else 1 }
    networkRetries := 0
    hls := none
    nextEngine := 0
    pending := []
    loads := [] }

/-! ## Session Lifecycle Manager: the source/HLS initialisation effect -/

/-- The platform facts the initialisation effect branches on. -/
structure InitEnv where
  /-- `opts.enableHLS` (absent means default behaviour). -/
  enableHLS : Option Bool
  /-- `video.canPlayType("application/vnd.apple.mpegurl")` is truthy. -/
  canPlayNative : Bool
  /-- `HLS.isSupported()`. -/
  hlsSupported : Bool

inductive Path where
  | Uninitialized
  | NativeAdaptive
  | EngineAdaptive
  | Direct
deriving DecidableEq

/-- The transient-field reset performed by the effect's `setState`:
`currentTime`, `duration`, `error`, `isBuffering`, `isLive`,
`qualityLevels`, `currentQualityLevel` are reset; everything else is
spread from the previous state. -/
def resetTransient (s : PlayerState) : PlayerState :=
  { s with
      currentTime := 0
      duration := 0
      error := none
      isBuffering := false
      isLive := false
      qualityLevels := []
      currentQualityLevel := -1 }

/-- The playback path chosen by the initialisation effect: empty source
stops after the reset; a manifest-classified source (with HLS enabled)
goes native when the sink supports the manifest format, to the bundled
engine when `HLS.isSupported()`, and otherwise nothing is assigned;
every other source is assigned directly. -/
def pathAfter (env : InitEnv) (parseURL : List Char → Option (List Char))
    (src : List Char) : Path :=
  if src.isEmpty then .Uninitialized
  else if (env.enableHLS != some false) && isHLSUrl parseURL src then
    if env.canPlayNative then .NativeAdaptive
    else if env.hlsSupported then .EngineAdaptive
    else .Uninitialized
  else .Direct

/-- The unconditional prefix of the source-change effect: destroy any
prior engine (`hlsRef.current = null`), clear the retry counter, and
reset the transient state fields. -/
def resetSession (s : Session) : Session :=
  { s with hls := none, networkRetries := 0, state := resetTransient s.state }

/-- The synchronous portion of the source-change effect: destroy any prior
engine, clear the retry counter, reset the transient state fields, and —
for a manifest source without native support but with the bundled engine
available — construct a fresh engine instance. -/
def sourceChange (env : InitEnv) (parseURL : List Char → Option (List Char))
    (src : List Char) (s : Session) : Session :=
  if src.isEmpty then resetSession s
  else if (env.enableHLS != some false) && isHLSUrl parseURL src then
    if env.canPlayNative then resetSession s
    else if env.hlsSupported then
      { resetSession s with hls := some s.nextEngine, nextEngine := s.nextEngine + 1 }
    else resetSession s
  else resetSession s

/-! ## Error Recovery Policy: the `Events.ERROR` handler -/

def MAX_RETRIES : Nat := 3

inductive HlsErrorType where
  | network
  | media
  | other
deriving DecidableEq

/-- The `hls.on(Events.ERROR)` handler. Non-fatal errors only log. Fatal
network errors below the retry cap increment the counter and schedule a
retry after `1000 * counter` ms against the emitting instance; at the cap
they set `streamNetworkError`. Fatal media errors invoke the engine's own
recovery (no session-state change). Other fatal errors destroy the engine
and set `streamFatalError`. A destroyed engine emits no events, so the
handler acts only when a current instance exists. -/
def onHlsError (fatal : Bool) (t : HlsErrorType) (s : Session) : Session :=
  match s.hls with
  | none => s
  | some eng =>
    if !fatal then s
    else
      match t with
      | .network =>
          if s.networkRetries < MAX_RETRIES then
            { s with
                networkRetries := s.networkRetries + 1
                pending := s.pending ++ [⟨eng, 1000 * (s.networkRetries + 1)⟩] }
          else
            { s with state := { s.state with error := some streamNetworkError } }
      | .media => s
      | .other =>
          { s with
              hls := none
              state := { s.state with error := some streamFatalError } }

/-- A scheduled retry timer elapses: the timer is consumed, and
`startLoad` is invoked on the captured instance only when it is still the
session's current engine (`hlsRef.current === hls`). -/
def fireRetry (r : Retry) (s : Session) : Session :=
  if s.hls == some r.engine then
    { s with pending := s.pending.erase r, loads := s.loads ++ [r.engine] }
  else { s with pending := s.pending.erase r }

/-! ## Rendition Tracker: engine events and the manual override -/

/-- `Events.MANIFEST_PARSED`: replace the level list wholesale and reset
the active level to automatic. -/
def onManifestParsed (levels : List RawLevel) (s : Session) : Session :=
  match s.hls with
  | none => s
  | some _ =>
      { s with state := { s.state with
                            qualityLevels := buildQualityLevels levels
                            currentQualityLevel := -1 } }

/-- `Events.LEVEL_SWITCHED`: mirror the engine's reported active level. -/
def onLevelSwitched (level : Int) (s : Session) : Session :=
  match s.hls with
  | none => s
  | some _ =>
      { s with state := { s.state with currentQualityLevel := level } }

/-- `setQualityLevel`: a no-op when no engine instance exists
(`if (!hls) return`); otherwise set `hls.currentLevel` and immediately
mirror the requested value into the state. -/
def setQualityLevel (level : Int) (s : Session) : Session :=
  match s.hls with
  | none => s
  | some _ =>
      { s with state := { s.state with currentQualityLevel := level } }

/-! ## Playback State Machine: sink event handlers -/

/-- `durationchange`: a non-finite duration means live (`isLive := true`,
reported duration `0`); a finite one is stored as-is. The second component
is the `onDurationChange` callback invocation, performed only for
non-live durations. -/
def handleDurationChange (d : JSNum) (s : PlayerState) : PlayerState × Option JSNum :=
  let live := !isFiniteNum d
  ({ s with
       duration := match d with | .num q => if live then 0 else q | _ => 0
       isLive := live },
   if live then none else some d)

/-- The sink's `MediaError.code` → `VideoErrorCode` map (`codeMap`),
defaulting to `UNKNOWN`. -/
def mapMediaErrCode : Nat → VideoErrorCode
  | 1 => .MEDIA_ERR_ABORTED
  | 2 => .MEDIA_ERR_NETWORK
  | 3 => .MEDIA_ERR_DECODE
  | 4 => .MEDIA_ERR_SRC_NOT_SUPPORTED
  | _ => .UNKNOWN

/-- The remaining sink events the hook listens to, with the data each
handler reads from the sink. -/
inductive SinkEvent where
  | play
  | pause
  | ended
  | timeUpdate (t : ℚ)
  | volumeChange (vol : ℚ) (muted : Bool)
  | rateChange (r : ℚ)
  | mediaError (code : Nat) (msg : String)
  | waiting
  | canplay
  | playing
  | progress (ranges : List (ℚ × ℚ))
  | fullscreenChange (fs : Bool)
  | pipChange (p : Bool)

/-- The sink event handlers (`handlePlay` … `handlePiPChange`): each sets
the fields its source counterpart sets and nothing else. The `error`
handler maps the sink's code and falls back to `"Unknown media error"` on
an empty message. -/
def applySinkEvent : SinkEvent → PlayerState → PlayerState
  | .play, s => { s with isPlaying := true }
  | .pause, s => { s with isPlaying := false }
  | .ended, s => { s with isPlaying := false }
  | .timeUpdate t, s => { s with currentTime := t }
  | .volumeChange v m, s => { s with volume := v, isMuted := m || v == 0 }
  | .rateChange r, s => { s with playbackRate := r }
  | .mediaError c msg, s =>
      { s with error := some ⟨mapMediaErrCode c,
          if msg = "" then "Unknown media error" else msg⟩ }
  | .waiting, s => { s with isBuffering := true }
  | .canplay, s => { s with isBuffering := false }
  | .playing, s => { s with isBuffering := false }
  | .progress rs, s => { s with bufferedRanges := rs }
  | .fullscreenChange fs, s => { s with isFullscreen := fs }
  | .pipChange p, s => { s with isPictureInPicture := p }

/-! ## Commands on the sink -/

/-- The value `seek(time)` assigns to the sink's `currentTime`:
`Math.max(0, Math.min(time, video.duration || time))`. -/
def seekAssign (time dur : JSNum) : JSNum :=
  jsMax (.num 0) (jsMin time (if truthyNum dur then dur else time))

/-! ## Reachability -/

/-- One step of the session: a source change, an engine event, a retry
timer elapsing, the manual quality override, or a sink event. -/
inductive Step : Session → Session → Prop where
  | source (s : Session) (env : InitEnv)
      (parseURL : List Char → Option (List Char)) (src : List Char) :
      Step s (sourceChange env parseURL src s)
  | engineError (s : Session) (fatal : Bool) (t : HlsErrorType) :
      Step s (onHlsError fatal t s)
  | retryTimer (s : Session) (r : Retry) (h : r ∈ s.pending) :
      Step s (fireRetry r s)
  | manifest (s : Session) (levels : List RawLevel) :
      Step s (onManifestParsed levels s)
  | levelSwitch (s : Session) (n : Int) :
      Step s (onLevelSwitched n s)
  | qualitySet (s : Session) (n : Int) :
      Step s (setQualityLevel n s)
  | durationChanged (s : Session) (d : JSNum) :
      Step s { s with state := (handleDurationChange d s.state).1 }
  | sink (s : Session) (e : SinkEvent) :
      Step s { s with state := applySinkEvent e s.state }

/-- Sessions reachable from the hook's initial state. -/
inductive Reachable : Session → Prop where
  | init (muted : Bool) : Reachable (initialSession muted)
  | step {s s' : Session} : Reachable s → Step s s' → Reachable s'

/-! ## Concrete scenario material -/

/-- A URL parser that succeeds with pathname `/stream.m3u8`, for concrete
scenarios. -/
def demoParse : List Char → Option (List Char) := fun _ => some "/stream.m3u8".data

/-- A concrete manifest URL. -/
def demoSrc : List Char := "https://host/stream.m3u8".data

/-- An environment with no native adaptive support and the bundled engine
available (the EngineAdaptive configuration). -/
def demoEnv : InitEnv := ⟨none, false, true⟩

/-- A fatal network error as reported by the engine. -/
def onFatalNetwork (s : Session) : Session := onHlsError true HlsErrorType.network s

/-- The session after a source change to `demoSrc` followed by `n`
consecutive fatal network errors. -/
def errs : Nat → Session
  | 0 => sourceChange demoEnv demoParse demoSrc (initialSession false)
  | n + 1 => onFatalNetwork (errs n)

/-- A reachable session on the EngineAdaptive path whose engine reported
a switch to level 2 and was then destroyed by a fatal unrecoverable
error. -/
def qualityScenario : Session :=
  onHlsError true HlsErrorType.other
    (onLevelSwitched 2 (sourceChange demoEnv demoParse demoSrc (initialSession false)))

/-! ## String lemmas -/

theorem startsWithL_iff_append (pat s : List Char) :
    startsWithL pat s = true ↔ ∃ t, s = pat ++ t := by
  induction pat generalizing s with
  | nil => simp [startsWithL]
  | cons p ps ih =>
    cases s with
    | nil => simp [startsWithL]
    | cons c cs =>
      simp only [startsWithL, Bool.and_eq_true, beq_iff_eq, ih, List.cons_append,
        List.cons.injEq]
      constructor
      · rintro ⟨rfl, t, rfl⟩
        exact ⟨t, rfl, rfl⟩
      · rintro ⟨t, rfl, rfl⟩
        exact ⟨rfl, t, rfl⟩

theorem occursIn_iff_append (pat s : List Char) :
    occursIn pat s = true ↔ ∃ a b, s = a ++ pat ++ b := by
  induction s with
  | nil =>
    simp only [occursIn, startsWithL_iff_append]
    constructor
    · rintro ⟨t, ht⟩
      exact ⟨[], t, ht⟩
    · rintro ⟨a, b, h⟩
      rcases List.append_eq_nil.mp h.symm with ⟨h1, h2⟩
      rcases List.append_eq_nil.mp h1 with ⟨rfl, rfl⟩
      exact ⟨b, by simpa using h⟩
  | cons c cs ih =>
    simp only [occursIn, Bool.or_eq_true, startsWithL_iff_append, ih]
    constructor
    · rintro (⟨t, ht⟩ | ⟨a, b, rfl⟩)
      · exact ⟨[], t, by simpa using ht⟩
      · exact ⟨c :: a, b, rfl⟩
    · rintro ⟨a, b, h⟩
      cases a with
      | nil =>
        left
        exact ⟨b, by simpa using h⟩
      | cons x a' =>
        right
        refine ⟨a', b, ?_⟩
        rw [List.cons_append, List.cons_append] at h
        exact (List.cons.injEq c cs x (a' ++ pat ++ b) ▸ h).2

theorem endsWithL_iff_append (pat s : List Char) :
    endsWithL pat s = true ↔ ∃ t, s = t ++ pat := by
  unfold endsWithL
  rw [startsWithL_iff_append]
  constructor
  · rintro ⟨t, ht⟩
    refine ⟨t.reverse, ?_⟩
    have h := congrArg List.reverse ht
    simpa using h
  · rintro ⟨t, rfl⟩
    exact ⟨t.reverse, by simp⟩

/-! ## Small helper lemmas -/

theorem jsMin_self (a : JSNum) : jsMin a a = a := by
  cases a <;> simp [jsMin]

theorem jsMax_zero_not_neg (x : JSNum) : isNegNum (jsMax (.num 0) x) = false := by
  cases x with
  | nan => rfl
  | posInf => rfl
  | negInf => simp [jsMax, isNegNum]
  | num a => simp [jsMax, isNegNum, le_max_left]

theorem sourceChange_state_eq (env : InitEnv) (p : List Char → Option (List Char))
    (src : List Char) (s : Session) :
    (sourceChange env p src s).state = resetTransient s.state := by
  unfold sourceChange
  split
  · rfl
  split
  · split
    · rfl
    split <;> rfl
  · rfl

/-! ## Claim theorems -/

/-- C8: `isHLSUrl` classifies a URL as a manifest exactly when its parsed
path ends with the manifest extension, or the URL contains the CDN
adaptive-stream path segment, or it matches the origin-server manifest
naming pattern; when URL parsing fails the result is instead a raw
case-insensitive substring check for the manifest extension. The
classifier is a pure function of the URL (and the parse outcome), so no
network I/O occurs. -/
theorem isHLSUrl_iff_specManifest (parseURL : List Char → Option (List Char))
    (url : List Char) :
    isHLSUrl parseURL url = true ↔ SpecManifest parseURL url := by
  unfold isHLSUrl SpecManifest
  cases parseURL url with
  | none => exact occursIn_iff_append hlsExt (lowerStr url)
  | some pathname =>
      simp only [Bool.or_eq_true, endsWithL_iff_append, occursIn_iff_append, or_assoc]

/-- C10: `seek(t)` assigns the sink `max(0, min(t, duration))` when the
duration is truthy (nonzero, non-NaN), `max(0, t)` when the duration is
`0` or `NaN`, and the assigned value is never negative. -/
theorem seekAssign_spec (t d : JSNum) :
    (truthyNum d = true → seekAssign t d = jsMax (.num 0) (jsMin t d)) ∧
    (d = .num 0 ∨ d = .nan → seekAssign t d = jsMax (.num 0) t) ∧
    isNegNum (seekAssign t d) = false := by
  refine ⟨?_, ?_, ?_⟩
  · intro h
    simp [seekAssign, h]
  · rintro (rfl | rfl) <;> simp [seekAssign, truthyNum, jsMin_self]
  · exact jsMax_zero_not_neg _

/-- C10 witness: with a requested time of `-7` and a duration of `5`, the
assigned time is `0 = max(0, min(-7, 5))` and is not negative. -/
theorem seekAssign_spec_witness :
    truthyNum (.num 5) = true ∧
    seekAssign (.num (-7)) (.num 5) = jsMax (.num 0) (jsMin (.num (-7)) (.num 5)) ∧
    isNegNum (seekAssign (.num (-7)) (.num 5)) = false :=
  ⟨by decide,
   (seekAssign_spec (.num (-7)) (.num 5)).1 (by decide),
   (seekAssign_spec (.num (-7)) (.num 5)).2.2⟩

/-- C5: after `durationchange`, `isLive` holds exactly when the reported
duration is not finite; a live snapshot reports duration `0`, a non-live
one reports the value; the `onDurationChange` callback fires exactly for
finite (non-live) durations. -/
theorem durationChange_spec (st : PlayerState) (d : JSNum) :
    ((handleDurationChange d st).1.isLive = true ↔ isFiniteNum d = false) ∧
    ((handleDurationChange d st).1.isLive = true →
      (handleDurationChange d st).1.duration = 0) ∧
    (∀ q : ℚ, d = .num q →
      (handleDurationChange d st).1.isLive = false ∧
      (handleDurationChange d st).1.duration = q) ∧
    ((handleDurationChange d st).2 = if isFiniteNum d then some d else none) := by
  cases d <;>
    simp [handleDurationChange, isFiniteNum]

/-- C5 witness: a `durationchange` reporting `Infinity` yields a live
snapshot with duration `0` and no callback. -/
theorem durationChange_spec_witness :
    (handleDurationChange .posInf DEFAULT_STATE).1.isLive = true ∧
    (handleDurationChange .posInf DEFAULT_STATE).1.duration = 0 ∧
    (handleDurationChange .posInf DEFAULT_STATE).2 = none := by
  have h := durationChange_spec DEFAULT_STATE .posInf
  exact ⟨h.1.mpr (by decide), h.2.1 (h.1.mpr (by decide)), by
    have h4 := h.2.2.2
    simpa using h4⟩

/-- C6: every source change resets `currentTime`, `duration`, `error`,
`isBuffering`, `isLive`, the rendition list and the active rendition to
their defaults while leaving volume, mute state and playback rate
untouched. -/
theorem sourceChange_reset_spec (s : Session) (env : InitEnv)
    (parseURL : List Char → Option (List Char)) (src : List Char) :
    (sourceChange env parseURL src s).state.currentTime = 0 ∧
    (sourceChange env parseURL src s).state.duration = 0 ∧
    (sourceChange env parseURL src s).state.error = none ∧
    (sourceChange env parseURL src s).state.isBuffering = false ∧
    (sourceChange env parseURL src s).state.isLive = false ∧
    (sourceChange env parseURL src s).state.qualityLevels = [] ∧
    (sourceChange env parseURL src s).state.currentQualityLevel = -1 ∧
    (sourceChange env parseURL src s).state.volume = s.state.volume ∧
    (sourceChange env parseURL src s).state.isMuted = s.state.isMuted ∧
    (sourceChange env parseURL src s).state.playbackRate = s.state.playbackRate := by
  simp only [sourceChange_state_eq]
  simp [resetTransient]

/-- C3: on a fatal network error, a counter below the cap is incremented
and a retry is scheduled against the same engine instance after
`1000 ms * (incremented counter)` — 1 s, 2 s, 3 s; at the cap the error
is set and nothing is scheduled. -/
theorem fatal_network_policy (s : Session) (eng : Nat) (h : s.hls = some eng) :
    (s.networkRetries < MAX_RETRIES →
      onHlsError true .network s =
        { s with
            networkRetries := s.networkRetries + 1
            pending := s.pending ++ [⟨eng, 1000 * (s.networkRetries + 1)⟩] }) ∧
    (MAX_RETRIES ≤ s.networkRetries →
      onHlsError true .network s =
        { s with state := { s.state with error := some streamNetworkError } }) := by
  unfold onHlsError
  rw [h]
  constructor
  · intro hlt
    simp [hlt]
  · intro hge
    simp [Nat.not_lt.mpr hge]

/-- C3 witness: a fresh engine session's first fatal network error bumps
the counter to 1 and schedules a 1000 ms retry against engine 0. -/
theorem fatal_network_policy_witness :
    (onHlsError true .network { initialSession false with hls := some 0 }).networkRetries = 1 ∧
    (onHlsError true .network { initialSession false with hls := some 0 }).pending = [⟨0, 1000⟩] := by
  have h := (fatal_network_policy { initialSession false with hls := some 0 } 0 rfl).1
    (by decide)
  rw [h]
  exact ⟨rfl, rfl⟩

/-- C2: a retry timer that fires when its captured engine instance is no
longer the session's current one neither triggers a load on that instance
nor mutates the session's state, counter or engine slot. -/
theorem stale_retry_noop (s : Session) (r : Retry)
    (_hmem : r ∈ s.pending) (hne : s.hls ≠ some r.engine) :
    (fireRetry r s).loads = s.loads ∧
    (fireRetry r s).state = s.state ∧
    (fireRetry r s).networkRetries = s.networkRetries ∧
    (fireRetry r s).hls = s.hls := by
  unfold fireRetry
  have hb : (s.hls == some r.engine) = false := by
    simpa using hne
  simp [hb]

/-- C2 witness: a retry scheduled for engine 0 fires after the engine
slot was cleared; nothing is loaded and the state is untouched. -/
theorem stale_retry_noop_witness :
    (fireRetry ⟨0, 1000⟩ { initialSession false with pending := [⟨0, 1000⟩] }).loads = [] ∧
    (fireRetry ⟨0, 1000⟩ { initialSession false with pending := [⟨0, 1000⟩] }).state =
      (initialSession false).state := by
  have h := stale_retry_noop { initialSession false with pending := [⟨0, 1000⟩] }
    ⟨0, 1000⟩ (by decide) (by decide)
  exact ⟨h.1, h.2.1⟩

/-- C7: a source classified as a manifest is never put on the Direct path
unless adaptive playback is configured off or the sink reports native
adaptive support. -/
theorem manifest_never_direct (env : InitEnv)
    (parseURL : List Char → Option (List Char)) (src : List Char)
    (hM : isHLSUrl parseURL src = true)
    (hD : pathAfter env parseURL src = Path.Direct) :
    env.enableHLS = some false ∨ env.canPlayNative = true := by
  left
  by_contra hne
  have hb : (env.enableHLS != some false) = true := by
    simpa using hne
  unfold pathAfter at hD
  rw [hb, hM] at hD
  simp only [Bool.and_self, if_true] at hD
  split at hD
  · exact Path.noConfusion hD
  split at hD
  · exact Path.noConfusion hD
  split at hD <;> exact Path.noConfusion hD

/-- C7 witness: with `enableHLS = false`, the manifest URL `demoSrc`
lands on the Direct path, and the theorem's disjunction holds. -/
theorem manifest_never_direct_witness :
    isHLSUrl demoParse demoSrc = true ∧
    pathAfter ⟨some false, false, true⟩ demoParse demoSrc = Path.Direct ∧
    ((⟨some false, false, true⟩ : InitEnv).enableHLS = some false ∨
      (⟨some false, false, true⟩ : InitEnv).canPlayNative = true) :=
  ⟨by decide, by decide,
   manifest_never_direct ⟨some false, false, true⟩ demoParse demoSrc
     (by decide) (by decide)⟩

/-- C9 counterexample: in the reachable session `qualityScenario` (engine
destroyed by a fatal unrecoverable error after reporting level 2),
`setQualityLevel (-1)` does not update the active rendition: the snapshot
still shows 2, not the requested `-1`. -/
theorem setQualityLevel_counterexample :
    (setQualityLevel (-1) qualityScenario).state.currentQualityLevel = 2 ∧
    Reachable qualityScenario := by
  refine ⟨by decide, ?_⟩
  exact Reachable.step
    (Reachable.step
      (Reachable.step (Reachable.init false)
        (Step.source (initialSession false) demoEnv demoParse demoSrc))
      (Step.levelSwitch _ 2))
    (Step.engineError _ true HlsErrorType.other)

/-- C9 amended: while the session owns an engine instance,
`setQualityLevel(id)` — including `id = -1` — immediately sets the active
rendition to the requested value; with no engine instance the call is a
no-op and the snapshot is unchanged. -/
theorem setQualityLevel_amended (s : Session) (level : Int) :
    (s.hls ≠ none → (setQualityLevel level s).state.currentQualityLevel = level) ∧
    (s.hls = none → setQualityLevel level s = s) := by
  constructor
  · intro hne
    unfold setQualityLevel
    cases h : s.hls with
    | none => exact absurd h hne
    | some e => rfl
  · intro h
    unfold setQualityLevel
    rw [h]

/-- C9 amended witness: with an engine present, requesting level 4
immediately shows 4 in the snapshot. -/
theorem setQualityLevel_amended_witness :
    (setQualityLevel 4 { initialSession false with hls := some 0 }).state.currentQualityLevel = 4 :=
  (setQualityLevel_amended { initialSession false with hls := some 0 } 4).1 (by decide)

/-! ## Retry-counter bookkeeping lemmas -/

theorem sourceChange_networkRetries (env : InitEnv)
    (p : List Char → Option (List Char)) (src : List Char) (s : Session) :
    (sourceChange env p src s).networkRetries = 0 := by
  unfold sourceChange
  split
  · rfl
  split
  · split
    · rfl
    split <;> rfl
  · rfl

theorem onHlsError_networkRetries_le (fatal : Bool) (t : HlsErrorType) (s : Session)
    (hle : s.networkRetries ≤ MAX_RETRIES) :
    (onHlsError fatal t s).networkRetries ≤ MAX_RETRIES := by
  unfold onHlsError
  cases hh : s.hls with
  | none => exact hle
  | some eng =>
    cases fatal with
    | false => simpa using hle
    | true =>
      cases t with
      | network =>
        by_cases hlt : s.networkRetries < MAX_RETRIES
        · simp only [Bool.not_true, Bool.false_eq_true, if_false, if_pos hlt]
          exact Nat.succ_le_of_lt hlt
        · simp only [Bool.not_true, Bool.false_eq_true, if_false, if_neg hlt]
          exact hle
      | media => simpa using hle
      | other => simpa using hle

theorem fireRetry_networkRetries (r : Retry) (s : Session) :
    (fireRetry r s).networkRetries = s.networkRetries := by
  unfold fireRetry
  split <;> rfl

theorem onManifestParsed_networkRetries (levels : List RawLevel) (s : Session) :
    (onManifestParsed levels s).networkRetries = s.networkRetries := by
  unfold onManifestParsed
  cases hh : s.hls <;> rfl

theorem onLevelSwitched_networkRetries (n : Int) (s : Session) :
    (onLevelSwitched n s).networkRetries = s.networkRetries := by
  unfold onLevelSwitched
  cases hh : s.hls <;> rfl

theorem setQualityLevel_networkRetries (n : Int) (s : Session) :
    (setQualityLevel n s).networkRetries = s.networkRetries := by
  unfold setQualityLevel
  cases hh : s.hls <;> rfl

/-- C4: in every reachable session the retry counter never exceeds 3, and
it is 0 immediately after the synchronous portion of any source change. -/
theorem retryCounter_invariant :
    (∀ s : Session, Reachable s → s.networkRetries ≤ MAX_RETRIES) ∧
    (∀ (s : Session) (env : InitEnv) (p : List Char → Option (List Char))
      (src : List Char), (sourceChange env p src s).networkRetries = 0) := by
  constructor
  · intro s hr
    induction hr with
    | init muted => exact Nat.zero_le _
    | step h1 h2 ih =>
      cases h2 with
      | source env p src =>
        rw [sourceChange_networkRetries]
        exact Nat.zero_le _
      | engineError fatal t => exact onHlsError_networkRetries_le fatal t _ ih
      | retryTimer r hm =>
        rw [fireRetry_networkRetries]
        exact ih
      | manifest levels =>
        rw [onManifestParsed_networkRetries]
        exact ih
      | levelSwitch n =>
        rw [onLevelSwitched_networkRetries]
        exact ih
      | qualitySet n =>
        rw [setQualityLevel_networkRetries]
        exact ih
      | durationChanged d => exact ih
      | sink e => exact ih
  · exact fun s env p src => sourceChange_networkRetries env p src s

/-- C4 witness: the initial session is reachable with counter `0 ≤ 3`,
and a concrete source change leaves the counter at 0. -/
theorem retryCounter_invariant_witness :
    (initialSession false).networkRetries ≤ MAX_RETRIES ∧
    (sourceChange demoEnv demoParse demoSrc (initialSession false)).networkRetries = 0 :=
  ⟨retryCounter_invariant.1 (initialSession false) (Reachable.init false),
   retryCounter_invariant.2 (initialSession false) demoEnv demoParse demoSrc⟩

/-! ## Retry exhaustion (C1) -/

theorem onFatalNetwork_below_cap (s : Session) (eng : Nat) (h : s.hls = some eng)
    (hlt : s.networkRetries < MAX_RETRIES) :
    onFatalNetwork s =
      { s with
          networkRetries := s.networkRetries + 1
          pending := s.pending ++ [⟨eng, 1000 * (s.networkRetries + 1)⟩] } := by
  unfold onFatalNetwork onHlsError
  rw [h]
  simp [hlt]

/-- C1 counterexample: after exactly 3 consecutive fatal network errors
on the (reachable) fresh engine session, the error field is still unset —
not `StreamNetworkError` — and a further retry has been scheduled
(`pending` holds the 1 s, 2 s and 3 s retries, the last still
outstanding), contradicting the claim; the counter does equal 3. -/
theorem retry_exhaustion_counterexample :
    (errs 3).state.error = none ∧
    (errs 3).networkRetries = 3 ∧
    (errs 3).pending = [⟨0, 1000⟩, ⟨0, 2000⟩, ⟨0, 3000⟩] ∧
    Reachable (errs 3) := by
  refine ⟨by decide, by decide, by decide, ?_⟩
  exact Reachable.step (Reachable.step (Reachable.step (Reachable.step
    (Reachable.init false)
    (Step.source _ demoEnv demoParse demoSrc))
    (Step.engineError _ true .network))
    (Step.engineError _ true .network))
    (Step.engineError _ true .network)

/-- C1 amended: from a session with a current engine instance and counter
0, three consecutive fatal network errors leave the counter at 3, the
error field untouched, and the 1 s / 2 s / 3 s retries scheduled (so a
retry is still pending after the third error); only the 4th consecutive
fatal network error sets `StreamNetworkError` ("Failed to load stream
after multiple retries."), schedules nothing further, and leaves the
counter at 3. -/
theorem retry_exhaustion_amended (s : Session) (eng : Nat)
    (h : s.hls = some eng) (h0 : s.networkRetries = 0) :
    (onFatalNetwork (onFatalNetwork (onFatalNetwork s))).networkRetries = 3 ∧
    (onFatalNetwork (onFatalNetwork (onFatalNetwork s))).state.error = s.state.error ∧
    (onFatalNetwork (onFatalNetwork (onFatalNetwork s))).pending =
      s.pending ++ [⟨eng, 1000⟩, ⟨eng, 2000⟩, ⟨eng, 3000⟩] ∧
    (onFatalNetwork (onFatalNetwork (onFatalNetwork (onFatalNetwork s)))).state.error =
      some streamNetworkError ∧
    (onFatalNetwork (onFatalNetwork (onFatalNetwork (onFatalNetwork s)))).pending =
      (onFatalNetwork (onFatalNetwork (onFatalNetwork s))).pending ∧
    (onFatalNetwork (onFatalNetwork (onFatalNetwork (onFatalNetwork s)))).networkRetries = 3 := by
  have e1 : onFatalNetwork s =
      { s with networkRetries := 1, pending := s.pending ++ [⟨eng, 1000⟩] } := by
    unfold onFatalNetwork onHlsError
    rw [h, h0]
    simp [MAX_RETRIES]
  have e2 : onFatalNetwork (onFatalNetwork s) =
      { s with networkRetries := 2,
               pending := s.pending ++ [⟨eng, 1000⟩, ⟨eng, 2000⟩] } := by
    rw [e1]
    unfold onFatalNetwork onHlsError
    simp [h, MAX_RETRIES]
  have e3 : onFatalNetwork (onFatalNetwork (onFatalNetwork s)) =
      { s with networkRetries := 3,
               pending := s.pending ++ [⟨eng, 1000⟩, ⟨eng, 2000⟩, ⟨eng, 3000⟩] } := by
    rw [e2]
    unfold onFatalNetwork onHlsError
    simp [h, MAX_RETRIES]
  have e4 : onFatalNetwork (onFatalNetwork (onFatalNetwork (onFatalNetwork s))) =
      { s with
          networkRetries := 3
          pending := s.pending ++ [⟨eng, 1000⟩, ⟨eng, 2000⟩, ⟨eng, 3000⟩]
          state := { s.state with error := some streamNetworkError } } := by
    rw [e3]
    unfold onFatalNetwork onHlsError
    simp [h, MAX_RETRIES]
  rw [e4, e3]
  exact ⟨rfl, rfl, rfl, rfl, rfl, rfl⟩

/-- C1 amended witness: the concrete fresh engine session exhausts its
retries on the 4th consecutive fatal network error. -/
theorem retry_exhaustion_amended_witness :
    (onFatalNetwork (onFatalNetwork (onFatalNetwork (onFatalNetwork
      { initialSession false with hls := some 5 })))).state.error =
      some streamNetworkError :=
  (retry_exhaustion_amended { initialSession false with hls := some 5 } 5
    rfl rfl).2.2.2.1

end VideoPlayer
